import Mathlib

/-!
Verification of the ESMTP session core of aiosmtplib (`aiosmtplib/esmtp.py`).

The Python source is shallowly embedded: pure string manipulation is
translated to executable Lean functions over `String` / `List Char`,
the mutable `ESMTP` connection object becomes an explicit state record
threaded through each command, server replies arrive as explicit
`SMTPResponse` inputs, and Python exceptions become `Except` results.
Python's ASCII-relevant string primitives (`str.strip`, `str.split`,
`str.lower`, indexing) are modelled by the `py*` helpers below.
-/

namespace Aiosmtplib

/-- Characters treated as whitespace by Python's `str.strip()` / `str.split()`
(ASCII fragment, which is all the parser ever meets). -/
def pyIsSpace (c : Char) : Bool :=
  c == ' ' || c == '\t' || c == '\n' || c == '\r' || c == '\x0b' || c == '\x0c'

/-- Python `str.strip()` on the underlying character list. -/
def pyStripList (cs : List Char) : List Char :=
  ((cs.dropWhile pyIsSpace).reverse.dropWhile pyIsSpace).reverse

/-- Python `str.strip()`. -/
def pyStrip (s : String) : String :=
  String.mk (pyStripList s.data)

/-- Python `str.lower()` (ASCII case mapping, via core `Char.toLower`). -/
def pyLower (s : String) : String :=
  String.mk (s.data.map Char.toLower)

/-- Helper for `pySplitWS`: accumulates the current word (reversed). -/
def pySplitWSAux : List Char → List Char → List String
  | [], [] => []
  | [], acc => [String.mk acc.reverse]
  | c :: cs, acc =>
    if pyIsSpace c then
      match acc with
      | [] => pySplitWSAux cs []
      | _ => String.mk acc.reverse :: pySplitWSAux cs []
    else
      pySplitWSAux cs (c :: acc)

/-- Python `str.split()` with no argument: split on whitespace runs,
discarding empty pieces. -/
def pySplitWS (s : String) : List String :=
  pySplitWSAux s.data []

/-- Python `str.split(sep)` for a one-character separator, on the
underlying character list.  `"".split(sep) == [""]`. -/
def splitListOn (sep : Char) : List Char → List (List Char)
  | [] => [[]]
  | c :: cs =>
    if c = sep then
      [] :: splitListOn sep cs
    else
      match splitListOn sep cs with
      | [] => [[c]]
      | l :: ls => (c :: l) :: ls

/-- `message.split('\n')` from the source. -/
def pySplitNewline (s : String) : List String :=
  (splitListOn '\x0a' s.data).map String.mk

/-- First character of the regex `EXTENSIONS_REGEX`: `[A-Za-z0-9]`. -/
def isExtStartChar (c : Char) : Bool :=
  (65 ≤ c.toNat && c.toNat ≤ 90) || (97 ≤ c.toNat && c.toNat ≤ 122) ||
    (48 ≤ c.toNat && c.toNat ≤ 57)

/-- Continuation characters of the regex `EXTENSIONS_REGEX`: `[A-Za-z0-9\-]`. -/
def isExtChar (c : Char) : Bool :=
  isExtStartChar c || c == '-'

/-- `OLDSTYLE_AUTH_REGEX.match(line)` where
`OLDSTYLE_AUTH_REGEX = re.compile(r'auth=(?P<auth>.*)', flags=re.I)`.
It matches iff the line starts (case-insensitively) with `auth=`; the
named group `auth` is then the whole remainder of the line. -/
def oldstyleAuthMatch (line : String) : Option String :=
  if (line.data.take 5).map Char.toLower = ['a', 'u', 't', 'h', '='] then
    some (String.mk (line.data.drop 5))
  else
    none

/-- `EXTENSIONS_REGEX.match(line)` where
`EXTENSIONS_REGEX = re.compile(r'(?P<ext>[A-Za-z0-9][A-Za-z0-9\-]*) ?')`.
It matches iff the line starts with an alphanumeric character; the
named group `ext` is the maximal run of `[A-Za-z0-9\-]` characters.
Returns the group together with `line[match.end('ext'):]`, which is
how the source recovers the parameter tail (the optional trailing
space of the regex sits after the group, so it stays in the tail). -/
def extensionsMatch (line : String) : Option (String × String) :=
  match line.data with
  | [] => none
  | c :: cs =>
    if isExtStartChar c then
      let ext := c :: cs.takeWhile isExtChar
      some (String.mk ext, String.mk ((c :: cs).drop ext.length))
    else
      none

/-- Python `dict` assignment `d[k] = v` on an insertion-ordered
association list: overwrite in place if the key exists, else append. -/
def dictInsert (d : List (String × String)) (k v : String) :
    List (String × String) :=
  if d.any (fun kv => kv.1 == k) then
    d.map (fun kv => if kv.1 == k then (k, v) else kv)
  else
    d ++ [(k, v)]

/-- The `EXTENSIONS_REGEX` half of the per-line loop body of
`parse_esmtp_extensions` (source lines 432-440). -/
def extensionStep (exts : List (String × String)) (auths : List String)
    (line : String) : List (String × String) × List String :=
  match extensionsMatch line with
  | none => (exts, auths)
  | some (extRaw, rest) =>
    let extension := pyLower extRaw
    let params := pyStrip rest
    let exts' := dictInsert exts extension params
    let auths' :=
      if extension == "auth" then
        auths ++ (pySplitWS params).map (fun p => pyLower (pyStrip p))
      else
        auths
    (exts', auths')

/-- One iteration of the `for line in response_lines[1:]` loop of
`parse_esmtp_extensions` (source lines 415-440).  The old-style branch
evaluates `auth_match.group('auth')[0]`, which raises `IndexError`
when the group is empty; that exception is the `Except.error` case. -/
def parseLine (acc : List (String × String) × List String) (line : String) :
    Except Unit (List (String × String) × List String) :=
  match oldstyleAuthMatch line with
  | some tail =>
    match tail.data with
    | [] => Except.error ()
    | c :: _ =>
      let authType := String.mk [c]
      let auths' :=
        if acc.2.contains authType then acc.2
        else acc.2 ++ [pyStrip (pyLower authType)]
      Except.ok (extensionStep acc.1 auths' line)
  | none => Except.ok (extensionStep acc.1 acc.2 line)

/-- `parse_esmtp_extensions(message)` (source lines 384-442): split the
message on newlines, drop the first line, and run the per-line loop.
The result is the `(esmtp_extensions, auth_types)` pair; `Except.error`
marks the `IndexError` escape of the old-style auth branch. -/
def parse_esmtp_extensions (message : String) :
    Except Unit (List (String × String) × List String) :=
  ((pySplitNewline message).drop 1).foldlM parseLine ([], [])

/-- `SMTPResponse(code, message)` from `aiosmtplib/response.py`: status
code plus the (possibly multi-line) reply text. -/
structure SMTPResponse where
  code : Nat
  message : String
deriving DecidableEq, Repr

/-- The exceptions the embedded commands can raise.  `indexError` models
the Python `IndexError` escaping from `parse_esmtp_extensions`;
`serverDisconnected` models `SMTPServerDisconnected` surfacing from the
transport; `valueError` models the `ValueError` of `starttls`. -/
inductive SMTPError where
  | heloError (code : Nat) (message : String)
  | responseError (code : Nat) (message : String)
  | senderRefused (code : Nat) (message : String) (sender : String)
  | recipientRefused (code : Nat) (message : String) (recipient : String)
  | dataError (code : Nat) (message : String)
  | smtpException (message : String)
  | serverDisconnected
  | valueError (message : String)
  | indexError
deriving DecidableEq, Repr

/-- Modelled from the spec: the numeric values of
`aiosmtplib.status.SMTPStatus` (whose module is not under `src/`),
taken from the per-command status table of the specification
(RFC 5321 codes). -/
def SMTPStatus.completed : Nat := 250

/-- Modelled from the spec: `SMTPStatus.ready` (service ready). -/
def SMTPStatus.ready : Nat := 220

/-- Modelled from the spec: `SMTPStatus.start_input` (DATA go-ahead). -/
def SMTPStatus.start_input : Nat := 354

/-- The mutable fields of the `ESMTP` connection object that the
embedded commands read or write: the five server-state fields set in
`ESMTP.__init__` (source lines 40-44), the TLS configuration fields
inherited from `SMTPConnection`, and a `closed` flag recording whether
`self.close()` has been called. -/
structure ESMTPState where
  last_helo_response : Option SMTPResponse
  last_ehlo_response : Option SMTPResponse
  esmtp_extensions : List (String × String)
  supports_esmtp : Bool
  server_auth_methods : List String
  validate_certs : Bool
  client_cert : Option String
  client_key : Option String
  tls_context : Option Unit
  closed : Bool
deriving DecidableEq, Repr

/-- The state right after `ESMTP.__init__` (source lines 37-44): the
five server-state fields are empty; the TLS configuration fields keep
whatever the `SMTPConnection` constructor gave them (parameters here,
since that constructor lives outside the verified core). -/
def initState (validate_certs : Bool) (client_cert client_key : Option String)
    (tls_context : Option Unit) : ESMTPState where
  last_helo_response := none
  last_ehlo_response := none
  esmtp_extensions := []
  supports_esmtp := false
  server_auth_methods := []
  validate_certs := validate_certs
  client_cert := client_cert
  client_key := client_key
  tls_context := tls_context
  closed := false

/-- The `last_ehlo_response` property setter (source lines 50-60): parse
the message, then assign the response and the parsed data and set
`supports_esmtp`.  If the parse raises, no field is assigned. -/
def set_last_ehlo_response (st : ESMTPState) (response : SMTPResponse) :
    Except Unit ESMTPState :=
  match parse_esmtp_extensions response.message with
  | Except.error e => Except.error e
  | Except.ok (extensions, auth_methods) =>
    Except.ok { st with
      last_ehlo_response := some response
      esmtp_extensions := extensions
      server_auth_methods := auth_methods
      supports_esmtp := true }

/-- `ESMTP.is_ehlo_or_helo_needed` (source lines 62-69). -/
def is_ehlo_or_helo_needed (st : ESMTPState) : Bool :=
  st.last_ehlo_response.isNone && st.last_helo_response.isNone

/-- `ESMTP.supports_extension` (source lines 291-295):
`extension.lower() in self.esmtp_extensions`. -/
def supports_extension (st : ESMTPState) (extension : String) : Bool :=
  st.esmtp_extensions.any (fun kv => kv.1 == pyLower extension)

/-- `ESMTP._reset_server_state` (source lines 310-318). -/
def reset_server_state (st : ESMTPState) : ESMTPState :=
  { st with
    last_helo_response := none
    last_ehlo_response := none
    esmtp_extensions := []
    supports_esmtp := false
    server_auth_methods := [] }

/-- `ESMTP.helo` (source lines 73-91), given the server's reply to the
HELO command.  The reply is stored unconditionally; then a code other
than 250 raises `SMTPHeloError`.  The first component of the result is
the connection state after the call (Python mutations survive a raise). -/
def helo (st : ESMTPState) (response : SMTPResponse) :
    ESMTPState × Except SMTPError SMTPResponse :=
  let st' := { st with last_helo_response := some response }
  if response.code ≠ SMTPStatus.completed then
    (st', Except.error (SMTPError.heloError response.code response.message))
  else
    (st', Except.ok response)

/-- `ESMTP.ehlo` (source lines 273-289), given the server's reply to the
EHLO command.  The reply is assigned to the `last_ehlo_response`
property (which parses it) before the status code is checked; a code
other than 250 then raises `SMTPHeloError`. -/
def ehlo (st : ESMTPState) (response : SMTPResponse) :
    ESMTPState × Except SMTPError SMTPResponse :=
  match set_last_ehlo_response st response with
  | Except.error _ => (st, Except.error SMTPError.indexError)
  | Except.ok st' =>
    if response.code ≠ SMTPStatus.completed then
      (st', Except.error (SMTPError.heloError response.code response.message))
    else
      (st', Except.ok response)

/-- `ESMTP.mail` (source lines 188-209), given the server's reply: a
code other than 250 raises `SMTPSenderRefused`; no state is touched. -/
def mail (st : ESMTPState) (sender : String) (response : SMTPResponse) :
    ESMTPState × Except SMTPError SMTPResponse :=
  if response.code ≠ SMTPStatus.completed then
    (st, Except.error (SMTPError.senderRefused response.code response.message sender))
  else
    (st, Except.ok response)

/-- `ESMTP.data` (source lines 237-269).  `start_result` is the outcome
of `execute_command(b'DATA')` and `send_result` the outcome of the body
transfer plus final read; `Except.error ()` on either input models
`SMTPServerDisconnected` from the transport.  Only the second phase is
wrapped in the `try`/`except` that calls `self.close()`. -/
def data (st : ESMTPState) (start_result : Except Unit SMTPResponse)
    (send_result : Except Unit SMTPResponse) :
    ESMTPState × Except SMTPError SMTPResponse :=
  match start_result with
  | Except.error _ => (st, Except.error SMTPError.serverDisconnected)
  | Except.ok start_response =>
    if start_response.code ≠ SMTPStatus.start_input then
      (st, Except.error (SMTPError.dataError start_response.code start_response.message))
    else
      match send_result with
      | Except.error _ =>
        ({ st with closed := true }, Except.error SMTPError.serverDisconnected)
      | Except.ok response =>
        if response.code ≠ SMTPStatus.completed then
          (st, Except.error (SMTPError.dataError response.code response.message))
        else
          (st, Except.ok response)

/-- `ESMTP._ehlo_or_helo_if_needed` (source lines 297-308):
`ehlo()` first; only `SMTPHeloError` triggers the `helo()` fallback;
any other exception (or a failing fallback) propagates.
`ehlo_response` / `helo_response` are the replies the server would give
to those commands were they issued. -/
def ehlo_or_helo_if_needed (st : ESMTPState)
    (ehlo_response helo_response : SMTPResponse) :
    ESMTPState × Except SMTPError Unit :=
  if is_ehlo_or_helo_needed st then
    match ehlo st ehlo_response with
    | (st', Except.ok _) => (st', Except.ok ())
    | (st', Except.error (SMTPError.heloError _ _)) =>
      match helo st' helo_response with
      | (st'', Except.ok _) => (st'', Except.ok ())
      | (st'', Except.error e) => (st'', Except.error e)
    | (st', Except.error e) => (st', Except.error e)
  else
    (st, Except.ok ())

/-- Python truthiness of an optional string field (`None` and `''` are
falsy; any other string is truthy). -/
def pyTruthyStr : Option String → Bool
  | none => false
  | some s => !(s == "")

/-- `ESMTP.starttls` (source lines 320-381).  Parameters with a
`_default` sentinel in the source become `Option` arguments (`none` =
not passed).  `tls_result` is the outcome of `protocol.starttls`
(`Except.error ()` = `SMTPServerDisconnected` during the exchange).
Control flow, in source order: overwrite the TLS configuration fields
from the passed arguments; raise `ValueError` when both a context and a
client certificate are configured; run the EHLO/HELO auto-greeting if
needed; fail when `starttls` is not an advertised extension; on
disconnection close and re-raise; reset the server state only when the
reply code is 220; return the reply unconditionally. -/
def starttls (st : ESMTPState) (validate_certs : Option Bool)
    (client_cert client_key : Option String) (tls_context : Option Unit)
    (ehlo_response helo_response : SMTPResponse)
    (tls_result : Except Unit SMTPResponse) :
    ESMTPState × Except SMTPError SMTPResponse :=
  let st := match validate_certs with
    | some v => { st with validate_certs := v }
    | none => st
  let st := match client_cert with
    | some cert => { st with client_cert := some cert }
    | none => st
  let st := match client_key with
    | some key => { st with client_key := some key }
    | none => st
  let st := match tls_context with
    | some ctx => { st with tls_context := some ctx }
    | none => st
  if st.tls_context.isSome && pyTruthyStr st.client_cert then
    (st, Except.error (SMTPError.valueError
      "Either a TLS context or a certificate/key must be provided"))
  else
    match ehlo_or_helo_if_needed st ehlo_response helo_response with
    | (st', Except.error e) => (st', Except.error e)
    | (st', Except.ok _) =>
      if !(supports_extension st' "starttls") then
        (st', Except.error (SMTPError.smtpException
          "SMTP STARTTLS extension not supported by server."))
      else
        match tls_result with
        | Except.error _ =>
          ({ st' with closed := true }, Except.error SMTPError.serverDisconnected)
        | Except.ok response =>
          if response.code = SMTPStatus.ready then
            (reset_server_state st', Except.ok response)
          else
            (st', Except.ok response)

/-- A concrete session state that has already recorded a successful
EHLO advertising STARTTLS (the state `last_ehlo_response.setter` builds
from the reply `250, "example.com\nSTARTTLS"` on a fresh session). -/
def stReady : ESMTPState where
  last_helo_response := none
  last_ehlo_response := some ⟨250, "example.com\nSTARTTLS"⟩
  esmtp_extensions := [("starttls", "")]
  supports_esmtp := true
  server_auth_methods := []
  validate_certs := true
  client_cert := none
  client_key := none
  tls_context := none
  closed := false

/-! ## Helper lemmas -/

theorem char_toNat_ofNat_of_lt {n : Nat} (h : n < 55296) :
    (Char.ofNat n).toNat = n := by
  rw [Char.ofNat, dif_pos (Or.inl h)]
  rfl

theorem toLower_toLower (c : Char) : (Char.toLower c).toLower = c.toLower := by
  unfold Char.toLower
  by_cases h : c.toNat ≥ 65 ∧ c.toNat ≤ 90
  · rw [if_pos h]
    have hv : (Char.ofNat (c.toNat + 32)).toNat = c.toNat + 32 :=
      char_toNat_ofNat_of_lt (by omega)
    rw [if_neg]
    omega
  · rw [if_neg h, if_neg h]

theorem map_toLower_idem (l : List Char) :
    (l.map Char.toLower).map Char.toLower = l.map Char.toLower := by
  induction l with
  | nil => rfl
  | cons c cs ih => simp [toLower_toLower, ih]

theorem pyLower_idem (s : String) : pyLower (pyLower s) = pyLower s := by
  show String.mk ((s.data.map Char.toLower).map Char.toLower) = _
  rw [map_toLower_idem]
  rfl

theorem mem_dictInsert {d : List (String × String)} {k v : String}
    {kv : String × String} (h : kv ∈ dictInsert d k v) :
    kv = (k, v) ∨ kv ∈ d := by
  unfold dictInsert at h
  split at h
  · rcases List.mem_map.1 h with ⟨kv', hmem, heq⟩
    by_cases hk : (kv'.1 == k) = true
    · left
      rw [if_pos hk] at heq
      exact heq.symm
    · right
      rw [if_neg hk] at heq
      rw [← heq]
      exact hmem
  · rcases List.mem_append.1 h with h' | h'
    · right
      exact h'
    · left
      simpa using h'

theorem extensionStep_fst_lower {exts : List (String × String)}
    {auths : List String} (line : String)
    (hinv : ∀ kv ∈ exts, pyLower kv.1 = kv.1) :
    ∀ kv ∈ (extensionStep exts auths line).1, pyLower kv.1 = kv.1 := by
  intro kv hkv
  cases hm : extensionsMatch line with
  | none =>
    simp only [extensionStep, hm] at hkv
    exact hinv kv hkv
  | some pr =>
    obtain ⟨extRaw, rest⟩ := pr
    simp only [extensionStep, hm] at hkv
    rcases mem_dictInsert hkv with heq | hmem
    · rw [heq]
      exact pyLower_idem extRaw
    · exact hinv kv hmem

theorem parseLine_fst_lower {acc acc' : List (String × String) × List String}
    {line : String} (h : parseLine acc line = Except.ok acc')
    (hinv : ∀ kv ∈ acc.1, pyLower kv.1 = kv.1) :
    ∀ kv ∈ acc'.1, pyLower kv.1 = kv.1 := by
  cases hm : oldstyleAuthMatch line with
  | none =>
    simp only [parseLine, hm, Except.ok.injEq] at h
    rw [← h]
    exact extensionStep_fst_lower line hinv
  | some tail =>
    cases htail : tail.data with
    | nil =>
      simp only [parseLine, hm, htail] at h
      exact Except.noConfusion h
    | cons c rest =>
      simp only [parseLine, hm, htail, Except.ok.injEq] at h
      rw [← h]
      exact extensionStep_fst_lower line hinv

theorem foldlM_parseLine_fst_lower (lines : List String) :
    ∀ acc res, (∀ kv ∈ acc.1, pyLower kv.1 = kv.1) →
      lines.foldlM parseLine acc = Except.ok res →
      ∀ kv ∈ res.1, pyLower kv.1 = kv.1 := by
  induction lines with
  | nil =>
    intro acc res hinv h
    cases h
    exact hinv
  | cons l ls ih =>
    intro acc res hinv h
    rw [List.foldlM_cons] at h
    cases hpl : parseLine acc l with
    | error e =>
      rw [hpl] at h
      exact Except.noConfusion h
    | ok acc' =>
      rw [hpl] at h
      exact ih acc' res (parseLine_fst_lower hpl hinv) h

/-! ## Claim theorems -/

/-- C1: the old-style `auth=<value>` branch does not append the first
whitespace-delimited token of `<value>`: it evaluates
`auth_match.group('auth')[0]`, the first character.  On the message
whose second line is `AUTH=LOGIN` the parser appends `"l"` (and the
separate extension branch appends `"=login"`); the resulting auth list
does not contain `"login"`. -/
theorem C1_oldstyle_auth_extracts_single_character :
    parse_esmtp_extensions "250-x\nAUTH=LOGIN" =
      Except.ok ([("auth", "=LOGIN")], ["l", "=login"]) ∧
    "login" ∉ (["l", "=login"] : List String) :=
  ⟨rfl, by decide⟩

/-- C2: `parse_esmtp_extensions` is not total: on a message containing a
line that is exactly `auth=`, the old-style branch indexes into the
empty regex group (`auth_match.group('auth')[0]`) and raises
`IndexError` instead of silently skipping the line. -/
theorem C2_parse_fails_on_empty_oldstyle_auth_value :
    parse_esmtp_extensions "250-x\nauth=" = Except.error () :=
  rfl

/-- C3 counterexample: an EHLO answered with code 500 raises
`SMTPHeloError`, but the session state *is* modified first: the failed
response is recorded in `last_ehlo_response` and `supports_esmtp`
becomes true, although both were unset on the fresh session. -/
theorem C3_counterexample_ehlo_failure_mutates_state :
    (ehlo (initState true none none none) ⟨500, "err"⟩).2 =
      Except.error (SMTPError.heloError 500 "err") ∧
    (ehlo (initState true none none none) ⟨500, "err"⟩).1.last_ehlo_response =
      some ⟨500, "err"⟩ ∧
    (ehlo (initState true none none none) ⟨500, "err"⟩).1.supports_esmtp = true ∧
    (initState true none none none).last_ehlo_response = none ∧
    (initState true none none none).supports_esmtp = false :=
  ⟨rfl, rfl, rfl, rfl, rfl⟩

/-- C3 (amended): a non-250 EHLO reply raises `SMTPHeloError`, but only
after the response has been recorded: `last_ehlo_response`, the parsed
extensions, the auth methods and `supports_esmtp` are all updated
before the raise.  A command such as MAIL, by contrast, leaves the
session state unchanged when it raises its typed failure. -/
theorem C3_ehlo_records_failed_response_mail_leaves_state
    (st : ESMTPState) (resp : SMTPResponse) (sender : String)
    (exts : List (String × String)) (auths : List String)
    (hparse : parse_esmtp_extensions resp.message = Except.ok (exts, auths))
    (hcode : resp.code ≠ 250) :
    ehlo st resp =
      ({ st with last_ehlo_response := some resp, esmtp_extensions := exts,
                 server_auth_methods := auths, supports_esmtp := true },
       Except.error (SMTPError.heloError resp.code resp.message)) ∧
    mail st sender resp =
      (st, Except.error (SMTPError.senderRefused resp.code resp.message sender)) := by
  constructor
  · simp [ehlo, set_last_ehlo_response, hparse, SMTPStatus.completed, hcode]
  · simp [mail, SMTPStatus.completed, hcode]

/-- Witness for C3 at a concrete fresh session and a 502 reply. -/
theorem C3_witness :
    ehlo (initState true none none none) ⟨502, "x"⟩ =
      ({ initState true none none none with
          last_ehlo_response := some ⟨502, "x"⟩, esmtp_extensions := [],
          server_auth_methods := [], supports_esmtp := true },
       Except.error (SMTPError.heloError 502 "x")) ∧
    mail (initState true none none none) "sender" ⟨502, "x"⟩ =
      (initState true none none none,
       Except.error (SMTPError.senderRefused 502 "x" "sender")) :=
  C3_ehlo_records_failed_response_mail_leaves_state
    (initState true none none none) ⟨502, "x"⟩ "sender" [] [] rfl (by decide)

/-- C4 counterexample: with STARTTLS advertised and the server answering
the STARTTLS exchange with code 454, `starttls` returns the non-220
response to the caller as a success value instead of raising. -/
theorem C4_counterexample_starttls_returns_non220 :
    starttls stReady none none none none ⟨250, "x"⟩ ⟨250, "x"⟩
        (Except.ok ⟨454, "TLS not available"⟩) =
      (stReady, Except.ok ⟨454, "TLS not available"⟩) ∧
    (454 : Nat) ≠ 220 :=
  ⟨rfl, by decide⟩

/-- C4 (amended): every command other than `starttls` either returns a
success response or raises, but `starttls` swallows a non-220 status:
when the STARTTLS exchange yields a response whose code is not 220, the
method returns that response unchanged (and performs no state reset). -/
theorem C4_starttls_returns_response_without_raising
    (st : ESMTPState) (resp er hr : SMTPResponse)
    (hneed : is_ehlo_or_helo_needed st = false)
    (hconf : (st.tls_context.isSome && pyTruthyStr st.client_cert) = false)
    (hsupp : supports_extension st "starttls" = true)
    (hcode : resp.code ≠ 220) :
    starttls st none none none none er hr (Except.ok resp) =
      (st, Except.ok resp) := by
  simp [starttls, ehlo_or_helo_if_needed, hneed, hconf, hsupp,
    SMTPStatus.ready, hcode]

/-- Witness for C4 at the concrete post-EHLO state and a 501 reply. -/
theorem C4_witness :
    starttls stReady none none none none ⟨250, "x"⟩ ⟨250, "x"⟩
        (Except.ok ⟨501, "Syntax error"⟩) =
      (stReady, Except.ok ⟨501, "Syntax error"⟩) :=
  C4_starttls_returns_response_without_raising stReady ⟨501, "Syntax error"⟩
    ⟨250, "x"⟩ ⟨250, "x"⟩ rfl rfl rfl (by decide)

/-- C5: when the STARTTLS exchange yields code 220 the server state is
reset: afterwards `supports_extension "starttls"` is false,
`is_ehlo_or_helo_needed` is true, the extension set is empty and
`supports_esmtp` is false. -/
theorem C5_starttls_220_resets_session_state
    (st : ESMTPState) (resp er hr : SMTPResponse)
    (hneed : is_ehlo_or_helo_needed st = false)
    (hconf : (st.tls_context.isSome && pyTruthyStr st.client_cert) = false)
    (hsupp : supports_extension st "starttls" = true)
    (hcode : resp.code = 220) :
    starttls st none none none none er hr (Except.ok resp) =
      (reset_server_state st, Except.ok resp) ∧
    supports_extension (reset_server_state st) "starttls" = false ∧
    is_ehlo_or_helo_needed (reset_server_state st) = true ∧
    (reset_server_state st).esmtp_extensions = [] ∧
    (reset_server_state st).supports_esmtp = false := by
  refine ⟨?_, rfl, rfl, rfl, rfl⟩
  simp [starttls, ehlo_or_helo_if_needed, hneed, hconf, hsupp,
    SMTPStatus.ready, hcode]

/-- Witness for C5 at the concrete post-EHLO state and a 220 reply. -/
theorem C5_witness :
    starttls stReady none none none none ⟨250, "x"⟩ ⟨250, "x"⟩
        (Except.ok ⟨220, "Ready"⟩) =
      (reset_server_state stReady, Except.ok ⟨220, "Ready"⟩) ∧
    supports_extension (reset_server_state stReady) "starttls" = false ∧
    is_ehlo_or_helo_needed (reset_server_state stReady) = true ∧
    (reset_server_state stReady).esmtp_extensions = [] ∧
    (reset_server_state stReady).supports_esmtp = false :=
  C5_starttls_220_resets_session_state stReady ⟨220, "Ready"⟩
    ⟨250, "x"⟩ ⟨250, "x"⟩ rfl rfl rfl rfl

/-- C6 (code evaluated at the failing input): a transport disconnection
during the initial DATA request (phase one) propagates
`SMTPServerDisconnected` *without* closing the session — the state is
returned unchanged with `closed = false` — whereas a disconnection
during the body transfer (phase two) does set `closed` before
propagating. -/
theorem C6_data_phase1_disconnect_does_not_close :
    data (initState true none none none) (Except.error ())
        (Except.ok ⟨250, "ok"⟩) =
      (initState true none none none, Except.error SMTPError.serverDisconnected) ∧
    (initState true none none none).closed = false ∧
    (data (initState true none none none) (Except.ok ⟨354, "go"⟩)
        (Except.error ())).1.closed = true ∧
    (data (initState true none none none) (Except.ok ⟨354, "go"⟩)
        (Except.error ())).2 = Except.error SMTPError.serverDisconnected :=
  ⟨rfl, rfl, rfl, rfl⟩

/-- C7 counterexample: on the exact message
`"250-example.com\n250-SIZE 10240000\n250 STARTTLS"` the extension
regex matches the status-code prefixes into the extension names, so the
resulting set has keys `"250-size"` and `"250"` and no `"size"` or
`"starttls"` key at all. -/
theorem C7_counterexample_prefixed_lines_misparsed :
    parse_esmtp_extensions "250-example.com\n250-SIZE 10240000\n250 STARTTLS" =
      Except.ok ([("250-size", "10240000"), ("250", "STARTTLS")], []) ∧
    List.lookup "size" [("250-size", "10240000"), ("250", "STARTTLS")] = none ∧
    List.lookup "starttls" [("250-size", "10240000"), ("250", "STARTTLS")] = none :=
  ⟨rfl, rfl, rfl⟩

/-- C7 (amended): on the message with the status-code prefixes already
stripped (as the protocol layer delivers it),
`"example.com\nSIZE 10240000\nSTARTTLS"`, the parser returns the
extension set `{size: "10240000", starttls: ""}` and no auth methods. -/
theorem C7_stripped_message_parses_as_specified :
    parse_esmtp_extensions "example.com\nSIZE 10240000\nSTARTTLS" =
      Except.ok ([("size", "10240000"), ("starttls", "")], []) :=
  rfl

/-- C8 counterexample: the auth-method list can contain duplicates — the
tokens of an `AUTH` extension line are appended without a membership
check, so `AUTH LOGIN LOGIN` yields the list `["login", "login"]`. -/
theorem C8_counterexample_duplicate_auth_methods :
    parse_esmtp_extensions "250-x\nAUTH LOGIN LOGIN" =
      Except.ok ([("auth", "LOGIN LOGIN")], ["login", "login"]) ∧
    ¬ (["login", "login"] : List String).Nodup :=
  ⟨rfl, by decide⟩

/-- C8 (amended): only the old-style `auth=` branch checks membership
before appending; tokens from an `auth` extension line are appended
unconditionally, so a repeated token appears repeatedly in the list. -/
theorem C8_auth_extension_appends_without_dedup :
    parse_esmtp_extensions "250-x\nAUTH LOGIN PLAIN LOGIN" =
      Except.ok ([("auth", "LOGIN PLAIN LOGIN")], ["login", "plain", "login"]) ∧
    List.count "login" ["login", "plain", "login"] = 2 :=
  ⟨rfl, by decide⟩

/-- C9: every key the parser stores is fully lowercase regardless of
input casing; `supports_extension` is case-insensitive — it agrees on a
name and its lowercasing — and on a fresh session it returns `false`
for every name, without failing. -/
theorem C9_lowercase_keys_and_case_insensitive_supports :
    (∀ message exts auths,
        parse_esmtp_extensions message = Except.ok (exts, auths) →
        ∀ kv ∈ exts, pyLower kv.1 = kv.1) ∧
    (∀ st name,
        supports_extension st name = supports_extension st (pyLower name)) ∧
    (∀ v c k x name, supports_extension (initState v c k x) name = false) := by
  refine ⟨?_, ?_, ?_⟩
  · intro message exts auths h kv hkv
    unfold parse_esmtp_extensions at h
    exact foldlM_parseLine_fst_lower _ ([], []) (exts, auths) (by simp) h kv hkv
  · intro st name
    simp [supports_extension, pyLower_idem]
  · intro v c k x name
    simp [supports_extension, initState]

/-- Witness for C9: concrete lowercase key, concrete case-insensitive
lookup, concrete fresh-session lookup. -/
theorem C9_witness :
    pyLower "size" = "size" ∧
    supports_extension stReady "STARTTLS" =
      supports_extension stReady (pyLower "STARTTLS") ∧
    supports_extension (initState true none none none) "starttls" = false :=
  ⟨C9_lowercase_keys_and_case_insensitive_supports.1 "x\nSIZE 1"
      [("size", "1")] [] rfl ("size", "1") (by decide),
   C9_lowercase_keys_and_case_insensitive_supports.2.1 stReady "STARTTLS",
   C9_lowercase_keys_and_case_insensitive_supports.2.2 true none none none
      "starttls"⟩

/-- C10: calling `starttls` with a TLS context and a client certificate
both supplied raises `ValueError`, but only after the four TLS
configuration fields have been overwritten with the call's arguments,
so the session configuration is not left unchanged on this error. -/
theorem C10_starttls_overwrites_tls_config_before_valueerror
    (st : ESMTPState) (v : Bool) (cert key : String)
    (er hr : SMTPResponse) (tr : Except Unit SMTPResponse)
    (hcert : cert ≠ "") :
    starttls st (some v) (some cert) (some key) (some ()) er hr tr =
      ({ st with validate_certs := v, client_cert := some cert,
                 client_key := some key, tls_context := some () },
       Except.error (SMTPError.valueError
         "Either a TLS context or a certificate/key must be provided")) := by
  simp [starttls, pyTruthyStr, hcert]

/-- Witness for C10 at a concrete fresh session and concrete
certificate/context arguments. -/
theorem C10_witness :
    starttls (initState false none none none) (some true) (some "cert.pem")
        (some "key.pem") (some ()) ⟨250, "x"⟩ ⟨250, "x"⟩
        (Except.ok ⟨220, "y"⟩) =
      ({ initState false none none none with
          validate_certs := true, client_cert := some "cert.pem",
          client_key := some "key.pem", tls_context := some () },
       Except.error (SMTPError.valueError
         "Either a TLS context or a certificate/key must be provided")) :=
  C10_starttls_overwrites_tls_config_before_valueerror
    (initState false none none none) true "cert.pem" "key.pem"
    ⟨250, "x"⟩ ⟨250, "x"⟩ (Except.ok ⟨220, "y"⟩) (by decide)

end Aiosmtplib
